import Mathlib

/-!
Shallow embedding of `src/app.py` of ImageCaptionGen: an image-captioning
demo with two entry points (a Streamlit button handler and a Flask route
`POST /caption`) sharing one caption-generation routine.

Raw uploaded bytes are `List Nat`; a decoded RGB image is also a `List Nat`
(its pixel data after `Image.open(...).convert("RGB")`); model tensors are
`List Int`.  Python exceptions are `Except AppError`.  The ambient process
state that could influence generation (the torch random-number generator)
is threaded explicitly as a `Nat` seed, so that statements about
determinism are about genuine potential inputs rather than vacuous.
-/

set_option autoImplicit false

instance exceptDecEq {ε α : Type} [DecidableEq ε] [DecidableEq α] :
    DecidableEq (Except ε α) := fun x y =>
  match x, y with
  | Except.ok a, Except.ok b =>
    if h : a = b then isTrue (h ▸ rfl) else isFalse (fun hc => h (Except.ok.inj hc))
  | Except.error a, Except.error b =>
    if h : a = b then isTrue (h ▸ rfl) else isFalse (fun hc => h (Except.error.inj hc))
  | Except.ok _, Except.error _ => isFalse (fun hc => Except.noConfusion hc)
  | Except.error _, Except.ok _ => isFalse (fun hc => Except.noConfusion hc)

/-- Python exceptions relevant to this program: PIL decode failures,
model-inference failures, and the werkzeug error raised by
`request.files[...]` on a missing multipart field. -/
inductive AppError where
  | decodeError
  | inferenceError (msg : String)
  | badRequestKeyError
deriving DecidableEq, Repr

/-- The user-visible text of an exception (what `f"{e}"` renders as). -/
def errorMessage : AppError → String
  | AppError.decodeError => "cannot identify image file"
  | AppError.inferenceError msg => msg
  | AppError.badRequestKeyError => "400 Bad Request: missing multipart field"

/-- Modelled from the spec: the captioning model as seen by beam-search
decoding (the internals of `blip_model.generate` live in the transformers
library, not in this repository).  `score t prefix tok` is the model score
of emitting token `tok` after `prefix` given preprocessed image tensor `t`;
`eos` is the end-of-sequence token; tokens range over `0 .. vocab - 1`. -/
structure CaptionModel where
  vocab : Nat
  eos : Nat
  score : List Int → List Nat → Nat → Int

/-- One beam of beam search: the tokens emitted so far, the accumulated
score, and whether the beam has produced the end token. -/
structure Beam where
  toks : List Nat
  score : Int
  done : Bool
deriving DecidableEq, Repr

/-- Expand a beam by one token: a finished beam is kept as is, an
unfinished beam branches over the whole vocabulary. -/
def expandBeam (m : CaptionModel) (t : List Int) (b : Beam) : List Beam :=
  if b.done then [b]
  else (List.range m.vocab).map (fun tok =>
    { toks := b.toks ++ [tok],
      score := b.score + m.score t b.toks tok,
      done := decide (tok = m.eos) })

/-- Insert a beam into a list sorted by descending score. -/
def insertBeam (b : Beam) : List Beam → List Beam
  | [] => [b]
  | c :: cs => if c.score ≤ b.score then b :: c :: cs else c :: insertBeam b cs

/-- Sort beams by descending score. -/
def sortBeams (bs : List Beam) : List Beam :=
  bs.foldr insertBeam []

/-- Keep the `k` best beams. -/
def topK (k : Nat) (bs : List Beam) : List Beam :=
  (sortBeams bs).take k

/-- Expand every beam of the current frontier by one token. -/
def stepBeams (m : CaptionModel) (t : List Int) (bs : List Beam) : List Beam :=
  bs.flatMap (expandBeam m t)

/-- Modelled from the spec: the beam-search loop of `generate` —
at each step expand all beams, keep the top `numBeams`, stop early when
every beam has reached the end token, and stop unconditionally when the
max-new-tokens budget `fuel` is exhausted. -/
def beamLoop (m : CaptionModel) (t : List Int) (numBeams : Nat)
    (earlyStop : Bool) : Nat → List Beam → List Beam
  | 0, bs => bs
  | fuel + 1, bs =>
    if earlyStop && bs.all (fun b => b.done) then bs
    else beamLoop m t numBeams earlyStop fuel (topK numBeams (stepBeams m t bs))

/-- Generation configuration as passed by `generate_caption`:
`max_new_tokens`, `num_beams`, `early_stopping`, and `do_sample`
(the transformers default `False` — the source never sets it). -/
structure GenCfg where
  maxNewTokens : Nat
  numBeams : Nat
  earlyStopping : Bool
  doSample : Bool
deriving DecidableEq, Repr

/-- Modelled from the spec: deterministic beam-search generation — run the
loop from the single empty beam and return the best final beam. -/
def beamGenerate (m : CaptionModel) (cfg : GenCfg) (t : List Int) : List Nat :=
  match sortBeams (beamLoop m t cfg.numBeams cfg.earlyStopping cfg.maxNewTokens
      [{ toks := [], score := 0, done := false }]) with
  | [] => []
  | b :: _ => b.toks

/-- Modelled from the spec: the sampling mode of `generate` (used only when
`do_sample=True`, which this repository never sets).  Each step consumes the
random state to pick a token, stopping at the end token or at the budget. -/
def sampleLoop (m : CaptionModel) : Nat → Nat → List Nat → List Nat
  | 0, _, acc => acc.reverse
  | fuel + 1, rng, acc =>
    if m.vocab = 0 then acc.reverse
    else
      let tok := rng % m.vocab
      if tok = m.eos then acc.reverse
      else sampleLoop m fuel (rng / m.vocab + 7919 * rng) (tok :: acc)

/-- Modelled from the spec: `blip_model.generate` — sampling when
`do_sample` is set (consuming the random state `rng`), otherwise pure
beam search, which ignores `rng`. -/
def blip_generate (m : CaptionModel) (cfg : GenCfg) (t : List Int) (rng : Nat) :
    List Nat :=
  if cfg.doSample then sampleLoop m cfg.maxNewTokens rng []
  else beamGenerate m cfg t

/-- The module-level bindings of `app.py` lines 12-20: the two pretrained
model + preprocessor pairs.  `image_open bs` is `Image.open(bs).convert("RGB")`
(`none` on undecodable bytes, i.e. a raised decode error);
`convnext_processor` / `blip_processor` are the two independent
preprocessors; `convnext_model` is the classification forward pass (which
may raise an inference error); `blip_model` is the captioning model;
`blip_batch_decode` is `blip_processor.batch_decode(..., skip_special_tokens=True)[0]`. -/
structure Env where
  image_open : List Nat → Option (List Nat)
  convnext_processor : List Nat → List Int
  convnext_model : List Int → Except AppError (List Int)
  blip_processor : List Nat → List Int
  blip_model : CaptionModel
  blip_batch_decode : List Nat → String

/-- `preprocess_image` (app.py lines 84-87): decode the bytes, then
normalize with the classification model preprocessor. -/
def preprocess_image (env : Env) (image : List Nat) : Except AppError (List Int) :=
  match env.image_open image with
  | none => Except.error AppError.decodeError
  | some img => Except.ok (env.convnext_processor img)

/-- `extract_features` (app.py lines 89-94): preprocess, then run the
classification forward pass under `torch.no_grad()` and return the logits. -/
def extract_features (env : Env) (image : List Nat) : Except AppError (List Int) :=
  match preprocess_image env image with
  | Except.error e => Except.error e
  | Except.ok inputs => env.convnext_model inputs

/-- The token-id stage of `generate_caption` (app.py lines 96-105):
re-decode the raw bytes, preprocess with the captioning model preprocessor,
and call `generate` with `max_new_tokens=max_length`, `num_beams`,
`early_stopping=True` (and the library default `do_sample=False`). -/
def caption_ids (env : Env) (image : List Nat) (max_length num_beams rng : Nat) :
    Except AppError (List Nat) :=
  match env.image_open image with
  | none => Except.error AppError.decodeError
  | some img =>
    Except.ok (blip_generate env.blip_model
      { maxNewTokens := max_length, numBeams := num_beams,
        earlyStopping := true, doSample := false }
      (env.blip_processor img) rng)

/-- `generate_caption` (app.py lines 96-107): the token ids of
`caption_ids`, decoded to a string. -/
def generate_caption (env : Env) (image : List Nat) (max_length num_beams rng : Nat) :
    Except AppError String :=
  match caption_ids env image max_length num_beams rng with
  | Except.error e => Except.error e
  | Except.ok ids => Except.ok (env.blip_batch_decode ids)

/-- Python string `.upper()`: uppercase every character (structural map
over the character list). -/
def pyUpper (s : String) : String :=
  String.mk (s.data.map Char.toUpper)

/-- The body of the `try:` block of the button handler (app.py lines
115-126): extract features (result unused downstream), then generate the
caption with the default parameters `max_length=50, num_beams=5`. -/
def ui_body (env : Env) (image : List Nat) (rng : Nat) : Except AppError String :=
  match extract_features env image with
  | Except.error e => Except.error e
  | Except.ok _features =>
    match generate_caption env image 50 5 rng with
    | Except.error e => Except.error e
    | Except.ok caption => Except.ok caption

/-- What the Streamlit session renders after a button click: either the
uppercased caption heading or the inline `st.error` box. -/
inductive UIOutcome where
  | captionShown (formatted : String)
  | errorShown (msg : String)
deriving DecidableEq, Repr

/-- The button-click handler (app.py lines 114-129): run the body; on
success display `caption.upper()`, on any exception render
`st.error(f"An error occurred: {e}")`.  The handler is a total function
into `UIOutcome`: no exception escapes it. -/
def button_handler (env : Env) (image : List Nat) (rng : Nat) : UIOutcome :=
  match ui_body env image rng with
  | Except.ok caption => UIOutcome.captionShown (pyUpper caption)
  | Except.error e => UIOutcome.errorShown ("An error occurred: " ++ errorMessage e)

/-- A parsed multipart POST request: the form files, as named byte fields. -/
structure HttpRequest where
  files : List (String × List Nat)
deriving DecidableEq, Repr

/-- The outcome of the Flask route: either a response with a status code
and a JSON object body, or an exception that escaped the handler. -/
inductive HttpResult where
  | response (status : Nat) (body : List (String × String))
  | unhandled (e : AppError)
deriving DecidableEq, Repr

/-- Model-invoking events, recorded to witness which requests reach the
caption generator. -/
inductive Event where
  | genCaptionCalled
deriving DecidableEq, Repr

/-- The multipart field name used by `request.files['image']` (app.py
line 137). -/
def image_field : String :=
  "image"

/-- `generate_caption_api` (app.py lines 135-139): look up `request.files`
at the key `image` (raising if absent), call `generate_caption` on the
file with the default parameters, and return `jsonify({'caption': caption})`
with status 200.  The handler body has no `try`/`except`: any exception of
`generate_caption` escapes as `HttpResult.unhandled`.  The second component
records whether `generate_caption` was invoked. -/
def generate_caption_api (env : Env) (req : HttpRequest) (rng : Nat) :
    HttpResult × List Event :=
  match req.files.lookup image_field with
  | none => (HttpResult.unhandled AppError.badRequestKeyError, [])
  | some image =>
    match generate_caption env image 50 5 rng with
    | Except.error e => (HttpResult.unhandled e, [Event.genCaptionCalled])
    | Except.ok caption =>
      (HttpResult.response 200 [("caption", caption)], [Event.genCaptionCalled])

/-- A tiny concrete captioning model for concrete evaluation: two tokens,
token 0 is the end token and is preferred by the score. -/
def tinyModel : CaptionModel :=
  { vocab := 2, eos := 0,
    score := fun _ _ tok => if tok = 0 then 1 else 0 }

/-- A tiny concrete captioning model that never prefers the end token, so
generation runs to the token budget. -/
def chattyModel : CaptionModel :=
  { vocab := 2, eos := 0,
    score := fun _ _ tok => if tok = 1 then 1 else 0 }

/-- A concrete environment: decoding succeeds exactly on nonempty byte
strings, preprocessors embed the pixels, the classification forward pass
succeeds, and token ids decode to the string of their length. -/
def envA : Env :=
  { image_open := fun bs => if bs = [] then none else some bs,
    convnext_processor := fun img => img.map Int.ofNat,
    convnext_model := fun t => Except.ok t,
    blip_processor := fun img => img.map Int.ofNat,
    blip_model := tinyModel,
    blip_batch_decode := fun ids => toString ids.length }

/-- A concrete environment like `envA` but with the chatty captioning
model. -/
def envChatty : Env :=
  { envA with blip_model := chattyModel }

/-- A concrete environment whose decoder rejects every byte string, to
exercise the decode-failure paths. -/
def envBad : Env :=
  { envA with image_open := fun _ => none }

/-- The caption of the concrete scenario in the spec. -/
def dogCaption : String :=
  "a dog sitting in the grass"

/-- The uppercased rendering of that caption. -/
def dogCaptionUpper : String :=
  "A DOG SITTING IN THE GRASS"

/-- A concrete environment whose captioning decoder produces the spec
scenario caption, to exhibit the uppercasing contrast between the two
entry points. -/
def envDog : Env :=
  { envA with blip_batch_decode := fun _ => dogCaption }

/-! ### Helper lemmas about the beam-search model -/

theorem mem_insertBeam (b c : Beam) (l : List Beam) (h : c ∈ insertBeam b l) :
    c = b ∨ c ∈ l := by
  induction l with
  | nil =>
    simp only [insertBeam, List.mem_singleton] at h
    exact Or.inl h
  | cons d ds ih =>
    simp only [insertBeam] at h
    split at h
    · rcases List.mem_cons.mp h with h | h
      · exact Or.inl h
      · exact Or.inr h
    · rcases List.mem_cons.mp h with h | h
      · exact Or.inr (List.mem_cons.mpr (Or.inl h))
      · rcases ih h with h | h
        · exact Or.inl h
        · exact Or.inr (List.mem_cons.mpr (Or.inr h))

theorem mem_sortBeams (c : Beam) (l : List Beam) (h : c ∈ sortBeams l) : c ∈ l := by
  induction l with
  | nil => simp [sortBeams] at h
  | cons d ds ih =>
    have h2 : c ∈ insertBeam d (sortBeams ds) := h
    rcases mem_insertBeam d c (sortBeams ds) h2 with h3 | h3
    · exact List.mem_cons.mpr (Or.inl h3)
    · exact List.mem_cons.mpr (Or.inr (ih h3))

theorem mem_topK (k : Nat) (c : Beam) (l : List Beam) (h : c ∈ topK k l) : c ∈ l :=
  mem_sortBeams c l (List.take_subset k (sortBeams l) h)

theorem length_le_of_mem_expandBeam (m : CaptionModel) (t : List Int) (b c : Beam)
    (h : c ∈ expandBeam m t b) : c.toks.length ≤ b.toks.length + 1 := by
  by_cases hd : b.done = true
  · rw [expandBeam, if_pos hd] at h
    simp only [List.mem_singleton] at h
    subst h
    exact Nat.le_succ _
  · rw [expandBeam, if_neg hd] at h
    simp only [List.mem_map, List.mem_range] at h
    rcases h with ⟨tok, _, htok⟩
    subst htok
    simp

theorem beamLoop_length_le (m : CaptionModel) (t : List Int) (k : Nat) (es : Bool) :
    ∀ (f L : Nat) (bs : List Beam), (∀ b ∈ bs, b.toks.length ≤ L) →
      ∀ c ∈ beamLoop m t k es f bs, c.toks.length ≤ L + f := by
  intro f
  induction f with
  | zero =>
    intro L bs hbs c hc
    simp only [beamLoop] at hc
    exact hbs c hc
  | succ n ih =>
    intro L bs hbs c hc
    simp only [beamLoop] at hc
    split at hc
    · exact Nat.le_trans (hbs c hc) (Nat.le_add_right L (n + 1))
    · have h2 : ∀ b ∈ topK k (stepBeams m t bs), b.toks.length ≤ L + 1 := by
        intro b hb
        rcases List.mem_flatMap.mp (mem_topK k b (stepBeams m t bs) hb) with ⟨a, ha, hba⟩
        exact Nat.le_trans (length_le_of_mem_expandBeam m t a b hba)
          (Nat.add_le_add_right (hbs a ha) 1)
      have h3 := ih (L + 1) (topK k (stepBeams m t bs)) h2 c hc
      omega

theorem beamGenerate_length_le (m : CaptionModel) (cfg : GenCfg) (t : List Int) :
    (beamGenerate m cfg t).length ≤ cfg.maxNewTokens := by
  have hinit : ∀ b ∈ [({ toks := [], score := 0, done := false } : Beam)],
      (Beam.toks b).length ≤ 0 := by
    intro b hb
    simp only [List.mem_singleton] at hb
    subst hb
    simp
  have hloop := beamLoop_length_le m t cfg.numBeams cfg.earlyStopping cfg.maxNewTokens 0
    [{ toks := [], score := 0, done := false }] hinit
  unfold beamGenerate
  split
  · simp
  · rename_i b rest hs
    have hb : b ∈ sortBeams (beamLoop m t cfg.numBeams cfg.earlyStopping cfg.maxNewTokens
        [{ toks := [], score := 0, done := false }]) := by
      rw [hs]
      exact List.mem_cons_self b rest
    have := hloop b (mem_sortBeams b _ hb)
    simpa using this

/-! ### Claim theorems -/

/-- C1: caption generation is deterministic: for a fixed environment
(fixed model weights), fixed image bytes and a fixed
(max_length, num_beams) pair, the result of `generate_caption` does not
depend on the ambient random state, so two calls return the identical
caption: the source never sets `do_sample`, hence generation is pure beam
search and ignores the random state. -/
theorem generate_caption_deterministic (env : Env) (image : List Nat)
    (max_length num_beams r1 r2 : Nat) :
    generate_caption env image max_length num_beams r1 =
      generate_caption env image max_length num_beams r2 := rfl

/-- C6: whenever `generate_caption` succeeds, the generated token sequence
has at most `max_length` new tokens, for every beam count `num_beams`: the
beam-search loop halts by the max-new-tokens budget even if no end token
is produced. -/
theorem caption_ids_length_le (env : Env) (image : List Nat)
    (max_length num_beams rng : Nat) (ids : List Nat)
    (h : caption_ids env image max_length num_beams rng = Except.ok ids) :
    ids.length ≤ max_length := by
  cases ho : env.image_open image with
  | none =>
    unfold caption_ids at h
    rw [ho] at h
    exact absurd h (by simp)
  | some img =>
    unfold caption_ids at h
    rw [ho] at h
    have hids := Except.ok.inj h
    rw [← hids]
    simpa [blip_generate] using beamGenerate_length_le env.blip_model
      { maxNewTokens := max_length, numBeams := num_beams, earlyStopping := true,
        doSample := false } (env.blip_processor img)

/-- Witness for C6 at a concrete input: the chatty model never emits the
end token, and generation still stops at the 3-token budget even with 2
beams. -/
theorem caption_ids_length_le_witness :
    ∃ ids, caption_ids envChatty [1] 3 2 0 = Except.ok ids ∧ ids.length ≤ 3 :=
  ⟨[1, 1, 1], by decide, caption_ids_length_le envChatty [1] 3 2 0 [1, 1, 1] (by decide)⟩

/-- C2: for every POST to the caption route carrying a multipart field
named `image` with decodable image bytes, the handler synchronously
invokes `generate_caption` on that file and returns a 200 response whose
JSON body is the single-key object mapping `caption` to the generated
caption string. -/
theorem api_success_returns_caption (env : Env) (req : HttpRequest) (rng : Nat)
    (bs img : List Nat) (h1 : req.files.lookup image_field = some bs)
    (h2 : env.image_open bs = some img) :
    ∃ c, generate_caption env bs 50 5 rng = Except.ok c ∧
      generate_caption_api env req rng =
        (HttpResult.response 200 [("caption", c)], [Event.genCaptionCalled]) := by
  refine ⟨env.blip_batch_decode (blip_generate env.blip_model
    { maxNewTokens := 50, numBeams := 5, earlyStopping := true, doSample := false }
    (env.blip_processor img) rng), ?_, ?_⟩
  · simp [generate_caption, caption_ids, h2]
  · simp [generate_caption_api, h1, generate_caption, caption_ids, h2]

/-- Witness for C2 at a concrete request against the concrete
environment. -/
theorem api_success_returns_caption_witness :
    ∃ c, generate_caption envA [1] 50 5 0 = Except.ok c ∧
      generate_caption_api envA ⟨[(image_field, [1])]⟩ 0 =
        (HttpResult.response 200 [("caption", c)], [Event.genCaptionCalled]) :=
  api_success_returns_caption envA ⟨[(image_field, [1])]⟩ 0 [1] [1] (by decide) (by decide)

/-- C3: the route handler body has no error boundary: for a request whose
file field holds undecodable bytes, the decode failure raised inside
`generate_caption` escapes the handler unhandled instead of becoming a
structured error response. -/
theorem api_decode_error_unhandled (env : Env) (bs : List Nat) (rng : Nat)
    (h : env.image_open bs = none) :
    generate_caption_api env ⟨[(image_field, bs)]⟩ rng =
      (HttpResult.unhandled AppError.decodeError, [Event.genCaptionCalled]) := by
  simp [generate_caption_api, generate_caption, caption_ids, h]

/-- Witness for C3: the all-rejecting decoder makes the route leak the
decode failure. -/
theorem api_decode_error_unhandled_witness :
    generate_caption_api envBad ⟨[(image_field, [1])]⟩ 0 =
      (HttpResult.unhandled AppError.decodeError, [Event.genCaptionCalled]) :=
  api_decode_error_unhandled envBad [1] 0 rfl

/-- C4: the button-click handler catches every exception raised during
feature extraction or caption generation and renders it as an inline error
message (in particular a decode failure on invalid image bytes), and the
handler always returns a rendered outcome — either a caption or an inline
error — so the session stays interactive and the process does not
terminate. -/
theorem button_handler_catches_exceptions :
    (∀ (env : Env) (image : List Nat) (rng : Nat) (e : AppError),
        ui_body env image rng = Except.error e →
          button_handler env image rng =
            UIOutcome.errorShown ("An error occurred: " ++ errorMessage e)) ∧
    (∀ (env : Env) (image : List Nat) (rng : Nat),
        env.image_open image = none →
          button_handler env image rng =
            UIOutcome.errorShown ("An error occurred: " ++
              errorMessage AppError.decodeError)) ∧
    (∀ (env : Env) (image : List Nat) (rng : Nat),
        (∃ s, button_handler env image rng = UIOutcome.captionShown s) ∨
        (∃ msg, button_handler env image rng = UIOutcome.errorShown msg)) := by
  refine ⟨?_, ?_, ?_⟩
  · intro env image rng e h
    simp [button_handler, h]
  · intro env image rng h
    simp [button_handler, ui_body, extract_features, preprocess_image, h]
  · intro env image rng
    cases hb : ui_body env image rng with
    | ok c => exact Or.inl ⟨pyUpper c, by simp [button_handler, hb]⟩
    | error e =>
      exact Or.inr ⟨"An error occurred: " ++ errorMessage e, by simp [button_handler, hb]⟩

/-- Witness for C4: invalid bytes in the concrete bad environment are
rendered as the inline error box. -/
theorem button_handler_catches_exceptions_witness :
    button_handler envBad [1] 0 =
      UIOutcome.errorShown ("An error occurred: " ++
        errorMessage AppError.decodeError) :=
  button_handler_catches_exceptions.2.1 envBad [1] 0 rfl

/-- C5: given the same image and the default parameters
(max_length = 50, num_beams = 5), the interactive path and the HTTP
endpoint surface the output of the same `generate_caption` call: one
caption string `c` is produced by `generate_caption`, displayed (after
uppercasing) by the button handler, and returned in the JSON body of the
route. -/
theorem ui_api_same_generated_caption (env : Env) (image : List Nat) (rng : Nat)
    (F : List Int) (h : extract_features env image = Except.ok F) :
    ∃ c, generate_caption env image 50 5 rng = Except.ok c ∧
      button_handler env image rng = UIOutcome.captionShown (pyUpper c) ∧
      generate_caption_api env ⟨[(image_field, image)]⟩ rng =
        (HttpResult.response 200 [("caption", c)], [Event.genCaptionCalled]) := by
  cases ho : env.image_open image with
  | none => simp [extract_features, preprocess_image, ho] at h
  | some img =>
    refine ⟨env.blip_batch_decode (blip_generate env.blip_model
      { maxNewTokens := 50, numBeams := 5, earlyStopping := true, doSample := false }
      (env.blip_processor img) rng), ?_, ?_, ?_⟩
    · simp [generate_caption, caption_ids, ho]
    · simp [button_handler, ui_body, h, generate_caption, caption_ids, ho]
    · simp [generate_caption_api, generate_caption, caption_ids, ho]

/-- Witness for C5 against the concrete environment. -/
theorem ui_api_same_generated_caption_witness :
    ∃ c, generate_caption envA [1] 50 5 0 = Except.ok c ∧
      button_handler envA [1] 0 = UIOutcome.captionShown (pyUpper c) ∧
      generate_caption_api envA ⟨[(image_field, [1])]⟩ 0 =
        (HttpResult.response 200 [("caption", c)], [Event.genCaptionCalled]) :=
  ui_api_same_generated_caption envA [1] 0 [1] (by decide)

/-- C7: for every successfully generated caption `c`, the interactive UI
displays `c` converted to uppercase, while the HTTP endpoint returns `c`
exactly as generated (not uppercased) in its JSON body. -/
theorem ui_uppercases_api_returns_raw (env : Env) (image : List Nat) (rng : Nat)
    (F : List Int) (c : String) (h1 : extract_features env image = Except.ok F)
    (h2 : generate_caption env image 50 5 rng = Except.ok c) :
    button_handler env image rng = UIOutcome.captionShown (pyUpper c) ∧
    (generate_caption_api env ⟨[(image_field, image)]⟩ rng).1 =
      HttpResult.response 200 [("caption", c)] := by
  constructor
  · simp [button_handler, ui_body, h1, h2]
  · simp [generate_caption_api, h2]

/-- Witness for C7: the spec scenario — the caption renders uppercased in
the UI and verbatim in the JSON body. -/
theorem ui_uppercases_api_returns_raw_witness :
    button_handler envDog [1] 0 = UIOutcome.captionShown dogCaptionUpper ∧
    (generate_caption_api envDog ⟨[(image_field, [1])]⟩ 0).1 =
      HttpResult.response 200 [("caption", dogCaption)] := by
  have h := ui_uppercases_api_returns_raw envDog [1] 0 [1] dogCaption
    (by decide) (by decide)
  exact ⟨by rw [h.1]; decide, h.2⟩

/-- C8: preprocessing is applied independently per model: the caption path
re-decodes the raw bytes itself and its result is unchanged under any
replacement of the classification preprocessor and model, the
feature-extraction path is unchanged under any replacement of the
captioning preprocessor, model and decoder, and a decode failure of the
raw bytes reaches the caption path directly. -/
theorem preprocessing_per_model_independent :
    (∀ (env : Env) (p : List Nat → List Int)
        (q : List Int → Except AppError (List Int)) (image : List Nat)
        (ml nb rng : Nat),
        generate_caption { env with convnext_processor := p, convnext_model := q }
            image ml nb rng = generate_caption env image ml nb rng) ∧
    (∀ (env : Env) (p : List Nat → List Int) (m : CaptionModel)
        (d : List Nat → String) (image : List Nat),
        extract_features
            { env with blip_processor := p, blip_model := m, blip_batch_decode := d }
            image = extract_features env image) ∧
    (∀ (env : Env) (image : List Nat) (ml nb rng : Nat),
        env.image_open image = none →
          generate_caption env image ml nb rng = Except.error AppError.decodeError) := by
  refine ⟨fun env p q image ml nb rng => rfl, fun env p m d image => rfl, ?_⟩
  intro env image ml nb rng h
  simp [generate_caption, caption_ids, h]

/-- Witness for C8: the caption path decodes the raw bytes itself, so the
all-rejecting decoder fails it directly. -/
theorem preprocessing_per_model_independent_witness :
    generate_caption envBad [1] 50 5 0 = Except.error AppError.decodeError :=
  preprocessing_per_model_independent.2.2 envBad [1] 50 5 0 rfl

/-- C9: the classification logits are never consumed by the caption path:
two runs that differ only in the value returned by `extract_features`
(both succeeding) render the same outcome in the UI, and the HTTP endpoint
is unconditionally unaffected by the classification model. -/
theorem caption_independent_of_features (env : Env)
    (g : List Int → Except AppError (List Int)) (image : List Nat) (rng : Nat)
    (F1 F2 : List Int) (h1 : extract_features env image = Except.ok F1)
    (h2 : extract_features { env with convnext_model := g } image = Except.ok F2) :
    button_handler env image rng =
      button_handler { env with convnext_model := g } image rng ∧
    ∀ req, generate_caption_api env req rng =
      generate_caption_api { env with convnext_model := g } req rng := by
  constructor
  · have hg : generate_caption { env with convnext_model := g } image 50 5 rng =
        generate_caption env image 50 5 rng := rfl
    simp [button_handler, ui_body, h1, h2, hg]
  · intro req
    rfl

/-- Witness for C9: changing the classification forward pass (hence the
logits) leaves the rendered caption and the route response unchanged. -/
theorem caption_independent_of_features_witness :
    button_handler envA [1] 0 =
      button_handler { envA with convnext_model := fun t => Except.ok (0 :: t) } [1] 0 ∧
    ∀ req, generate_caption_api envA req 0 =
      generate_caption_api { envA with convnext_model := fun t => Except.ok (0 :: t) }
        req 0 :=
  caption_independent_of_features envA (fun t => Except.ok (0 :: t)) [1] 0 [1] [0, 1]
    (by decide) (by decide)

/-- C10: for every POST whose form data has no field named `image`, the
lookup `request.files['image']` raises, the handler returns no caption,
and `generate_caption` — hence any model inference — is never invoked for
that request (the event trace is empty). -/
theorem api_missing_field_no_inference (env : Env) (req : HttpRequest) (rng : Nat)
    (h : req.files.lookup image_field = none) :
    generate_caption_api env req rng =
      (HttpResult.unhandled AppError.badRequestKeyError, []) := by
  simp [generate_caption_api, h]

/-- Witness for C10: a request whose only field is named `file`. -/
theorem api_missing_field_no_inference_witness :
    generate_caption_api envA ⟨[("file", [1])]⟩ 0 =
      (HttpResult.unhandled AppError.badRequestKeyError, []) :=
  api_missing_field_no_inference envA ⟨[("file", [1])]⟩ 0 (by decide)
